import Mathlib

/-!
Verification of the build orchestration and native-dependency fallback
subsystem of the cross-exchange-daemon repository.

The development shallowly embeds two source files:

* src/src/utils/native-fallbacks.js — the NativeModuleHandler class:
  per-capability fallback constructors (sqlite3, keytar, bcrypt) and the
  global require interception (setupGlobalFallbacks).
* src/scripts/build-executable.js — the ExecutableBuilder class:
  workspace setup/cleanup, the three-strategy build cascade
  (ncc bundling, pkg packing, basic copy), artifact verification
  (testExecutable), the run() driver and CLI argument parsing.

Effects are made explicit: module loading is a map from module names to an
optional cached module object id (Node caches successful loads per process),
object allocation is a counter threaded through provider construction (each
JavaScript object literal or Map created by a call is a fresh object), and
the builder's file-system footprint is a small record of the facts the
claims are about (existence of the temp-build workspace and the artifact
written at the project root).  Thrown exceptions are Except errors.
-/

/-! ## String helpers

JavaScript String.prototype.includes and a suffix test, defined by plain
recursion on character lists so that concrete instances evaluate in the
kernel. -/

/-- sub is a leading segment of the second list. -/
def leadsWith : List Char → List Char → Bool
  | [], _ => true
  | _ :: _, [] => false
  | a :: as, b :: bs => a == b && leadsWith as bs

/-- pat occurs contiguously somewhere in hay (JavaScript includes). -/
def containsSub (pat : List Char) : List Char → Bool
  | [] => leadsWith pat []
  | c :: rest => leadsWith pat (c :: rest) || containsSub pat rest

/-- JavaScript s.includes(pat) for strings. -/
def strIncludes (s pat : String) : Bool :=
  containsSub pat.toList s.toList

/-- s ends with pat. -/
def strEndsWith (s pat : String) : Bool :=
  leadsWith pat.toList.reverse s.toList.reverse

/-! ## Module environment and providers (native-fallbacks.js)

A ModuleEnv tells, for every module name, whether the original (unpatched)
require succeeds, and if so which cached module object it yields.  Node
caches a successful load for the process lifetime, so a given environment
always returns the same object id for the same name; a failing load throws
afresh on every call. -/

/-- Per-process module registry: name to the cached module object id, none
when loading that module throws. -/
def ModuleEnv : Type := String → Option Nat

/-- The value a require call can produce, and the fallback objects the
handler constructs.  Every constructor carries the identity of the
JavaScript object it stands for: native modules keep their registry id,
fallbacks record the allocation counter at which they were built (each call
to a createXFallback catch branch builds a brand-new object literal, and
for keytar a brand-new Map). -/
inductive Provider where
  | native (name : String) (objId : Nat)
  | sqliteFb (objId : Nat)
  | keytarFb (storeId : Nat)
  | bcryptjsFb (objId : Nat)
  | identityFb (objId : Nat)
deriving DecidableEq, Repr

/-- The original Module.prototype.require saved by setupGlobalFallbacks:
returns the cached module or throws a load error. -/
def originalRequire (env : ModuleEnv) (id : String) : Except String Provider :=
  match env id with
  | some objId => .ok (.native id objId)
  | none => .error ("Cannot find module " ++ id)

/-- NativeModuleHandler.createSqlite3Fallback: try require sqlite3; on
failure warn and return a fresh object exposing the MockDatabase class.
The Nat argument and result thread the allocation counter. -/
def createSqlite3Fallback (env : ModuleEnv) (c : Nat) :
    Except String (Provider × Nat) :=
  match originalRequire env "sqlite3" with
  | .ok p => .ok (p, c)
  | .error _ => .ok (.sqliteFb c, c + 1)

/-- NativeModuleHandler.createKeytarFallback: try require keytar; on
failure warn and return a fresh object closing over a fresh Map
(memoryStore).  The store id is the allocation counter at construction. -/
def createKeytarFallback (env : ModuleEnv) (c : Nat) :
    Except String (Provider × Nat) :=
  match originalRequire env "keytar" with
  | .ok p => .ok (p, c)
  | .error _ => .ok (.keytarFb c, c + 1)

/-- NativeModuleHandler.createBcryptFallback: try require bcrypt; on
failure try require bcryptjs and wrap it in a fresh object literal; if that
also fails return the fresh identity-hash object (NOT FOR PRODUCTION). -/
def createBcryptFallback (env : ModuleEnv) (c : Nat) :
    Except String (Provider × Nat) :=
  match originalRequire env "bcrypt" with
  | .ok p => .ok (p, c)
  | .error _ =>
    match originalRequire env "bcryptjs" with
    | .ok _ => .ok (.bcryptjsFb c, c + 1)
    | .error _ => .ok (.identityFb c, c + 1)

/-- NativeModuleHandler.createFallbacks: build all three fallback
resolutions, threading the allocation counter. -/
def createFallbacks (env : ModuleEnv) (c : Nat) :
    Except String ((Provider × Provider × Provider) × Nat) :=
  match createSqlite3Fallback env c with
  | .error e => .error e
  | .ok (s, c1) =>
    match createKeytarFallback env c1 with
    | .error e => .error e
    | .ok (k, c2) =>
      match createBcryptFallback env c2 with
      | .error e => .error e
      | .ok (b, c3) => .ok ((s, k, b), c3)

/-- The require installed by NativeModuleHandler.setupGlobalFallbacks:
delegate to the original require; on a throw, substitute the matching
fallback for exactly the names sqlite3, keytar and bcrypt, and rethrow the
original error for every other name. -/
def interceptedRequire (env : ModuleEnv) (c : Nat) (id : String) :
    Except String (Provider × Nat) :=
  match originalRequire env id with
  | .ok p => .ok (p, c)
  | .error e =>
    if id = "sqlite3" then createSqlite3Fallback env c
    else if id = "keytar" then createKeytarFallback env c
    else if id = "bcrypt" then createBcryptFallback env c
    else .error e

/-! ## Keytar fallback store semantics

The keytar fallback closes over its own Map keyed by service:account.
A heap maps store ids to association lists so that distinct fallback
objects demonstrably do not share state. -/

/-- Key construction in the keytar fallback. -/
def keytarKey (service account : String) : String :=
  service ++ ":" ++ account

/-- Map.prototype.set on an association list: replace or append. -/
def setAssoc : List (String × String) → String → String → List (String × String)
  | [], k, v => [(k, v)]
  | (k0, v0) :: t, k, v =>
    if k0 = k then (k, v) :: t else (k0, v0) :: setAssoc t k v

/-- Map.prototype.get, none when absent. -/
def getAssoc : List (String × String) → String → Option String
  | [], _ => none
  | (k0, v0) :: t, k => if k0 = k then some v0 else getAssoc t k

/-- Heap of keytar fallback stores, one Map per store id. -/
def KeytarHeap : Type := Nat → List (String × String)

/-- setPassword of the keytar fallback with store id sid. -/
def keytarSetPassword (h : KeytarHeap) (sid : Nat)
    (service account password : String) : KeytarHeap :=
  fun n => if n = sid then setAssoc (h sid) (keytarKey service account) password else h n

/-- getPassword of the keytar fallback with store id sid
(memoryStore.get(key) with null for a miss). -/
def keytarGetPassword (h : KeytarHeap) (sid : Nat)
    (service account : String) : Option String :=
  getAssoc (h sid) (keytarKey service account)

/-! ## Terminal bcrypt fallback (identity hash) -/

/-- hash of the terminal bcrypt fallback: the resolved value is the data
itself, the rounds argument is ignored. -/
def identityHash (data : String) (rounds : Nat) : String := data

/-- hashSync of the terminal bcrypt fallback. -/
def identityHashSync (data : String) (rounds : Nat) : String := data

/-- compare of the terminal bcrypt fallback: raw string equality. -/
def identityCompare (data h : String) : Bool := data == h

/-- compareSync of the terminal bcrypt fallback. -/
def identityCompareSync (data h : String) : Bool := data == h

/-- genSalt / genSaltSync of the terminal bcrypt fallback. -/
def identityGenSalt (rounds : Nat) : String := "fallback-salt"

/-! ## MockDatabase (sqlite3 fallback) -/

/-- Outcome of one MockDatabase method call: whether the optional callback
was invoked, and if so with which error and value arguments. -/
inductive CbCall (α : Type) where
  | notCalled
  | called (err : Option String) (val : α)
deriving DecidableEq, Repr

/-- MockDatabase.prototype.run: warn, then invoke the callback (when
present) with a null error; never throws. -/
def MockDatabase.run (sql : String) (params : List String) (hasCb : Bool) :
    Except String (CbCall Unit) :=
  .ok (if hasCb then .called none () else .notCalled)

/-- MockDatabase.prototype.get: warn, then invoke the callback (when
present) with a null error and a null row; never throws. -/
def MockDatabase.get (sql : String) (params : List String) (hasCb : Bool) :
    Except String (CbCall (Option (List String))) :=
  .ok (if hasCb then .called none none else .notCalled)

/-- MockDatabase.prototype.all: warn, then invoke the callback (when
present) with a null error and an empty row array; never throws. -/
def MockDatabase.all (sql : String) (params : List String) (hasCb : Bool) :
    Except String (CbCall (List (List String))) :=
  .ok (if hasCb then .called none [] else .notCalled)

/-! ## ExecutableBuilder (build-executable.js)

The builder runs a sequential pipeline whose external effects (subprocess
invocations and file-system copies) can each succeed or fail; a BuildEnv
fixes those outcomes for one invocation, and an FsState records the facts
the claims are about: whether the temp-build workspace exists and which
artifact sits at the project root under the configured output name. -/

/-- Builder options (the ExecutableBuilder constructor's fields). -/
structure BuilderOptions where
  target : String
  output : String
  verbose : Bool
  skipCleanup : Bool
deriving DecidableEq, Repr

/-- The launcher scripts emitted by the ncc and basic strategies: both cd
into temp-build/dist under the project root (cdsInto) and invoke node on
entry; isBatch records the Windows batch variant. -/
structure Launcher where
  cdsInto : String
  entry : String
  isBatch : Bool
deriving DecidableEq, Repr

/-- What sits at the project root under the configured output name. -/
inductive Artifact where
  | launcher (l : Launcher)
  | pkgBinary
deriving DecidableEq, Repr

/-- The builder-visible file system facts. -/
structure FsState where
  tempDirExists : Bool
  artifact : Option Artifact
deriving DecidableEq, Repr

/-- Outcome of running the produced artifact with --help in
testExecutable: clean exit, non-zero exit, or expiry of the fixed
timeout. -/
inductive TestOutcome where
  | exitZero
  | exitNonZero
  | timeout
deriving DecidableEq, Repr

/-- The fixed verification timeout (milliseconds) raced against the
artifact in testExecutable. -/
def testTimeoutMs : Nat := 10000

/-- Environment of one build invocation: whether each effectful step
succeeds.  nccOk covers the whole first try block (the ncc command and the
subsequent copies and launcher write), pkgOk the pkg command,
pkgArtifactProduced whether the pkg command left its binary where the
builder looks for it, basicOk the copies of the third strategy (its only
failure mode is catastrophic I/O, which is uncaught). -/
structure BuildEnv where
  setupOk : Bool
  installOk : Bool
  manifestOk : Bool
  patchesOk : Bool
  nccOk : Bool
  pkgOk : Bool
  pkgArtifactProduced : Bool
  basicOk : Bool
  testOutcome : TestOutcome
deriving DecidableEq, Repr

/-- The three packaging strategies of the cascade. -/
inductive Strategy where
  | ncc
  | pkg
  | basic
deriving DecidableEq, Repr

/-- The string identifier buildExecutable returns for each strategy. -/
def Strategy.tag : Strategy → String
  | .ncc => "ncc"
  | .pkg => "pkg"
  | .basic => "basic"

/-- ExecutableBuilder.cleanup: remove the temp-build directory when
cleanup is not suppressed and the directory exists, otherwise do
nothing. -/
def cleanup (o : BuilderOptions) (s : FsState) : FsState :=
  if !o.skipCleanup && s.tempDirExists then { s with tempDirExists := false } else s

/-- ExecutableBuilder.buildExecutable: try ncc bundling; on any throw in
that block fall through to pkg; on any throw there fall through to the
basic package, whose own I/O failure is uncaught.  Returns the succeeding
strategy (none when even the basic strategy threw), the list of strategies
attempted in order, and the resulting file-system state.  The ncc and
basic strategies write a launcher at the project root that cds into
temp-build/dist; pkg moves its binary there only when the command left
one. -/
def buildExecutable (o : BuilderOptions) (env : BuildEnv) (s : FsState) :
    Option Strategy × List Strategy × FsState :=
  let nccLauncher : Artifact :=
    .launcher ⟨"temp-build/dist", "index.js", strIncludes o.target "win"⟩
  let basicLauncher : Artifact :=
    .launcher ⟨"temp-build/dist", "src/index.js", strIncludes o.target "win"⟩
  if env.nccOk then
    (some .ncc, [.ncc], { s with artifact := some nccLauncher })
  else if env.pkgOk then
    (some .pkg, [.ncc, .pkg],
      if env.pkgArtifactProduced then { s with artifact := some .pkgBinary } else s)
  else if env.basicOk then
    (some .basic, [.ncc, .pkg, .basic], { s with artifact := some basicLauncher })
  else
    (none, [.ncc, .pkg, .basic], s)

/-- ExecutableBuilder.testExecutable: throw when no artifact exists at the
output path; otherwise race the artifact's --help run against the fixed
timeout, returning true on a clean exit and false on a non-zero exit or on
timeout (both caught and logged as warnings). -/
def testExecutable (env : BuildEnv) (s : FsState) : Except String Bool :=
  match s.artifact with
  | none => .error "Executable not found"
  | some _ =>
    match env.testOutcome with
    | .exitZero => .ok true
    | .exitNonZero => .ok false
    | .timeout => .ok false

/-- Result of one ExecutableBuilder.run invocation. -/
structure RunResult where
  exitCode : Nat
  fs : FsState
  buildMethod : Option Strategy
  testPassed : Option Bool
  attempts : List Strategy
deriving DecidableEq, Repr

/-- ExecutableBuilder.run: setup (cleanup then recreate the workspace and
copy sources), install dependencies, patch the manifest, emit the native
module patches, run the build cascade, verify the artifact, then clean up
unless suppressed; any throw lands in the catch block, which also cleans
up unless suppressed and exits with code 1. -/
def ExecutableBuilder.run (o : BuilderOptions) (env : BuildEnv) (s0 : FsState) :
    RunResult :=
  let s1 : FsState := { (cleanup o s0) with tempDirExists := true }
  if !env.setupOk then
    { exitCode := 1, fs := cleanup o s1, buildMethod := none,
      testPassed := none, attempts := [] }
  else if !env.installOk then
    { exitCode := 1, fs := cleanup o s1, buildMethod := none,
      testPassed := none, attempts := [] }
  else if !env.manifestOk then
    { exitCode := 1, fs := cleanup o s1, buildMethod := none,
      testPassed := none, attempts := [] }
  else if !env.patchesOk then
    { exitCode := 1, fs := cleanup o s1, buildMethod := none,
      testPassed := none, attempts := [] }
  else
    match buildExecutable o env s1 with
    | (none, tried, s2) =>
      { exitCode := 1, fs := cleanup o s2, buildMethod := none,
        testPassed := none, attempts := tried }
    | (some m, tried, s2) =>
      match testExecutable env s2 with
      | .error _ =>
        { exitCode := 1, fs := cleanup o s2, buildMethod := none,
          testPassed := none, attempts := tried }
      | .ok t =>
        { exitCode := 0, fs := cleanup o s2, buildMethod := some m,
          testPassed := some t, attempts := tried }

/-! ## CLI argument parsing (build-executable.js, require.main block) -/

/-- Array.prototype.indexOf specialised to the argument list (none for the
JavaScript -1). -/
def jsIndexOf : List String → String → Option Nat
  | [], _ => none
  | a :: rest, x => if a = x then some 0 else (jsIndexOf rest x).map (· + 1)

/-- args[i], none past the end (JavaScript undefined). -/
def jsGet : List String → Nat → Option String
  | [], _ => none
  | a :: _, 0 => some a
  | _ :: rest, n + 1 => jsGet rest n

/-- The defaulted options object built first in the CLI block. -/
def defaultOptions (args : List String) : BuilderOptions :=
  { target := "linux-x64", output := "cross-exchange-daemon-linux",
    verbose := args.contains "--verbose" || args.contains "-v",
    skipCleanup := args.contains "--skip-cleanup" }

/-- The combined flag test of the CLI block (index found, a following
argument exists and it is truthy, that is non-empty): the effective value
following a flag, none when the flag is absent or its value falsy. -/
def effectiveFlagValue (args : List String) (flag : String) : Option String :=
  match jsIndexOf args flag with
  | some i =>
    match jsGet args (i + 1) with
    | some v => if v ≠ "" then some v else none
    | none => none
  | none => none

/-- The target-parsing block: when an effective --target value follows the
flag, set the target and rewrite the output name for win and macos
targets. -/
def parseTargetBlock (args : List String) (o0 : BuilderOptions) : BuilderOptions :=
  match effectiveFlagValue args "--target" with
  | some t =>
    let out :=
      if strIncludes t "win" then "cross-exchange-daemon-win.exe"
      else if strIncludes t "macos" then "cross-exchange-daemon-macos"
      else o0.output
    { o0 with target := t, output := out }
  | none => o0

/-- The output-parsing block: an effective --output value overrides the
output name verbatim. -/
def parseOutputBlock (args : List String) (o1 : BuilderOptions) : BuilderOptions :=
  match effectiveFlagValue args "--output" with
  | some out => { o1 with output := out }
  | none => o1

/-- CLI options derived from process.argv.slice(2): the defaults, then the
target block, then the output block, in source order. -/
def parseOptions (args : List String) : BuilderOptions :=
  parseOutputBlock args (parseTargetBlock args (defaultOptions args))

/-- Whether an invocation supplies an effective explicit --output value
(the condition under which parseOptions overrides the derived name). -/
def outputExplicit (args : List String) : Bool :=
  (effectiveFlagValue args "--output").isSome

/-! ## Concrete fixtures for instance checks -/

/-- Default builder options (the constructor defaults, cleanup enabled). -/
def sampleOptions : BuilderOptions :=
  { target := "linux-x64", output := "cross-exchange-daemon-linux",
    verbose := false, skipCleanup := false }

/-- An environment where every step succeeds and ncc bundling works. -/
def sampleEnvNcc : BuildEnv :=
  { setupOk := true, installOk := true, manifestOk := true, patchesOk := true,
    nccOk := true, pkgOk := true, pkgArtifactProduced := true, basicOk := true,
    testOutcome := .exitZero }

/-- An environment where ncc and pkg fail and the basic strategy succeeds,
with the verification run exiting non-zero. -/
def sampleEnvBasic : BuildEnv :=
  { setupOk := true, installOk := true, manifestOk := true, patchesOk := true,
    nccOk := false, pkgOk := false, pkgArtifactProduced := false, basicOk := true,
    testOutcome := .exitNonZero }

/-- A file-system state with a stale workspace and no artifact. -/
def sampleFsDirty : FsState := { tempDirExists := true, artifact := none }

/-- A file-system state holding a pkg binary at the project root. -/
def sampleFsWithArtifact : FsState :=
  { tempDirExists := false, artifact := some .pkgBinary }

/-- A module environment in which no native module loads. -/
def emptyModuleEnv : ModuleEnv := fun _ => none

/-- A module environment in which only the module x loads. -/
def sampleModuleEnvX : ModuleEnv := fun n => if n = "x" then some 7 else none

/-- An empty keytar heap. -/
def emptyKeytarHeap : KeytarHeap := fun _ => []

/-! ## Helper lemmas -/

/-- With cleanup not suppressed, the workspace is gone after cleanup. -/
theorem cleanup_tempDirExists (o : BuilderOptions) (s : FsState)
    (h : o.skipCleanup = false) : (cleanup o s).tempDirExists = false := by
  cases hs : s.tempDirExists <;> simp [cleanup, h, hs]

/-- cleanup never touches the artifact at the project root. -/
theorem cleanup_artifact (o : BuilderOptions) (s : FsState) :
    (cleanup o s).artifact = s.artifact := by
  unfold cleanup
  split <;> rfl

/-- The build cascade never reads the verification outcome. -/
theorem buildExecutable_testOutcome (o : BuilderOptions) (env : BuildEnv)
    (t : TestOutcome) (s : FsState) :
    buildExecutable o { env with testOutcome := t } s = buildExecutable o env s := rfl

/-- Changing only the verification outcome changes neither the exit code
nor the recorded build method nor the final file-system state of run. -/
theorem run_testOutcome_invariant (o : BuilderOptions) (env : BuildEnv)
    (s0 : FsState) (t1 t2 : TestOutcome) :
    (ExecutableBuilder.run o { env with testOutcome := t1 } s0).exitCode =
      (ExecutableBuilder.run o { env with testOutcome := t2 } s0).exitCode ∧
    (ExecutableBuilder.run o { env with testOutcome := t1 } s0).buildMethod =
      (ExecutableBuilder.run o { env with testOutcome := t2 } s0).buildMethod ∧
    (ExecutableBuilder.run o { env with testOutcome := t1 } s0).fs =
      (ExecutableBuilder.run o { env with testOutcome := t2 } s0).fs := by
  unfold ExecutableBuilder.run
  simp only [buildExecutable_testOutcome]
  cases h1 : env.setupOk <;> cases h2 : env.installOk <;>
    cases h3 : env.manifestOk <;> cases h4 : env.patchesOk <;>
      simp only [h1, h2, h3, h4, Bool.not_false, Bool.not_true] <;>
        try exact ⟨rfl, rfl, rfl⟩
  rcases hbe : buildExecutable o env
      { (cleanup o s0) with tempDirExists := true } with ⟨mo, tried, s2⟩
  cases mo with
  | none => simp [hbe]
  | some m =>
    cases ha : s2.artifact with
    | none => simp [hbe, testExecutable, ha]
    | some a => cases t1 <;> cases t2 <;> simp [hbe, testExecutable, ha]

/-- An ineffective --output flag leaves the options of the target block
untouched. -/
theorem parseOutputBlock_not_explicit (args : List String) (o1 : BuilderOptions)
    (h : outputExplicit args = false) : parseOutputBlock args o1 = o1 := by
  unfold outputExplicit at h
  unfold parseOutputBlock
  cases hE : effectiveFlagValue args "--output" with
  | none => rfl
  | some out => rw [hE] at h; simp at h

/-- After the target block alone, the output name ends in .exe exactly
when the target string mentions win. -/
theorem parseTargetBlock_exe_iff (args : List String) :
    strEndsWith (parseTargetBlock args (defaultOptions args)).output ".exe" =
      strIncludes (parseTargetBlock args (defaultOptions args)).target "win" := by
  unfold parseTargetBlock
  cases hE : effectiveFlagValue args "--target" with
  | none =>
    show strEndsWith "cross-exchange-daemon-linux" ".exe" = strIncludes "linux-x64" "win"
    decide
  | some t =>
    by_cases hw : strIncludes t "win" = true
    · simp only [hw, if_true]
      decide
    · rw [Bool.not_eq_true] at hw
      by_cases hm : strIncludes t "macos" = true
      · simp only [hw, Bool.false_eq_true, if_false, hm, if_true]
        decide
      · rw [Bool.not_eq_true] at hm
        simp only [hw, Bool.false_eq_true, if_false, hm]
        show strEndsWith "cross-exchange-daemon-linux" ".exe" = false
        decide

/-- The sqlite3 resolver returns a provider whatever the environment. -/
theorem createSqlite3Fallback_ok (env : ModuleEnv) (c : Nat) :
    ∃ r, createSqlite3Fallback env c = .ok r := by
  unfold createSqlite3Fallback originalRequire
  cases env "sqlite3" <;> simp

/-- The keytar resolver returns a provider whatever the environment. -/
theorem createKeytarFallback_ok (env : ModuleEnv) (c : Nat) :
    ∃ r, createKeytarFallback env c = .ok r := by
  unfold createKeytarFallback originalRequire
  cases env "keytar" <;> simp

/-- The bcrypt resolver returns a provider whatever the environment, even
when both the native and the pure-software tier are missing. -/
theorem createBcryptFallback_ok (env : ModuleEnv) (c : Nat) :
    ∃ r, createBcryptFallback env c = .ok r := by
  unfold createBcryptFallback originalRequire
  cases env "bcrypt" <;> cases env "bcryptjs" <;> simp

/-! ## Claim theorems -/

/-- Claim C1: buildExecutable attempts the packaging strategies in the
strict order ncc, pkg, basic; it stops at the first success, returning
that strategy (whose identifiers are the strings ncc, pkg and basic); a
strategy-1 failure always leads to an attempt of strategy 2 and a
strategy-2 failure to an attempt of strategy 3, so a fatal outcome arises
only after all three strategies were attempted. -/
theorem buildExecutable_cascade_order (o : BuilderOptions) (env : BuildEnv)
    (s : FsState) :
    (env.nccOk = true →
      (buildExecutable o env s).1 = some .ncc ∧
      (buildExecutable o env s).2.1.map Strategy.tag = ["ncc"]) ∧
    (env.nccOk = false → env.pkgOk = true →
      (buildExecutable o env s).1 = some .pkg ∧
      (buildExecutable o env s).2.1.map Strategy.tag = ["ncc", "pkg"]) ∧
    (env.nccOk = false → env.pkgOk = false →
      (buildExecutable o env s).2.1.map Strategy.tag = ["ncc", "pkg", "basic"] ∧
      (env.basicOk = true → (buildExecutable o env s).1 = some .basic)) ∧
    ((buildExecutable o env s).1 = none →
      (buildExecutable o env s).2.1 = [.ncc, .pkg, .basic] ∧ env.basicOk = false) := by
  cases h1 : env.nccOk <;> cases h2 : env.pkgOk <;> cases h3 : env.basicOk <;>
    simp [buildExecutable, h1, h2, h3, Strategy.tag]

/-- Witness for C1: with ncc and pkg failing and the basic strategy
succeeding, all three strategies are attempted in order and the cascade
returns basic. -/
theorem buildExecutable_cascade_order_witness :
    (buildExecutable sampleOptions sampleEnvBasic sampleFsDirty).2.1.map Strategy.tag =
      ["ncc", "pkg", "basic"] ∧
    (buildExecutable sampleOptions sampleEnvBasic sampleFsDirty).1 = some .basic := by
  have h :=
    (buildExecutable_cascade_order sampleOptions sampleEnvBasic sampleFsDirty).2.2.1 rfl rfl
  exact ⟨h.1, h.2 rfl⟩

/-- Claim C2: with skipCleanup false the workspace does not exist after
run, whatever the build outcome; cleanup is idempotent and is the identity
when the workspace is already absent. -/
theorem run_workspace_cleanup (o : BuilderOptions) (env : BuildEnv) (s : FsState)
    (h : o.skipCleanup = false) :
    (ExecutableBuilder.run o env s).fs.tempDirExists = false ∧
    cleanup o (cleanup o s) = cleanup o s ∧
    (s.tempDirExists = false → cleanup o s = s) := by
  refine ⟨?_, ?_, ?_⟩
  · unfold ExecutableBuilder.run
    cases h1 : env.setupOk <;> cases h2 : env.installOk <;>
      cases h3 : env.manifestOk <;> cases h4 : env.patchesOk <;>
        simp only [h1, h2, h3, h4, Bool.not_false, Bool.not_true] <;>
          try exact cleanup_tempDirExists o _ h
    rcases hbe : buildExecutable o env
        { (cleanup o s) with tempDirExists := true } with ⟨mo, tried, s2⟩
    cases mo with
    | none => simp [hbe, cleanup_tempDirExists o _ h]
    | some m =>
      cases ha : s2.artifact with
      | none => simp [hbe, testExecutable, ha, cleanup_tempDirExists o _ h]
      | some a =>
        cases ht : env.testOutcome <;>
          simp [hbe, testExecutable, ha, ht, cleanup_tempDirExists o _ h]
  · cases ho : o.skipCleanup <;> cases hs : s.tempDirExists <;>
      simp [cleanup, ho, hs]
  · intro hs
    simp [cleanup, hs]

/-- Witness for C2 at the basic-strategy environment and a dirty initial
state. -/
theorem run_workspace_cleanup_witness :
    sampleOptions.skipCleanup = false ∧
    ((ExecutableBuilder.run sampleOptions sampleEnvBasic sampleFsDirty).fs.tempDirExists = false ∧
     cleanup sampleOptions (cleanup sampleOptions sampleFsDirty) =
       cleanup sampleOptions sampleFsDirty ∧
     (sampleFsDirty.tempDirExists = false →
       cleanup sampleOptions sampleFsDirty = sampleFsDirty)) :=
  ⟨rfl, run_workspace_cleanup sampleOptions sampleEnvBasic sampleFsDirty rfl⟩

/-- Claim C3: resolution of each of the three capabilities never throws:
whatever modules the environment is missing (including both bcrypt tiers),
every resolver returns ok with some provider, as does createFallbacks. -/
theorem capability_resolution_never_throws (env : ModuleEnv) (c : Nat) :
    (∃ r, createSqlite3Fallback env c = .ok r) ∧
    (∃ r, createKeytarFallback env c = .ok r) ∧
    (∃ r, createBcryptFallback env c = .ok r) ∧
    (∃ r, createFallbacks env c = .ok r) := by
  obtain ⟨⟨p1, c1⟩, hs⟩ := createSqlite3Fallback_ok env c
  obtain ⟨⟨p2, c2⟩, hk⟩ := createKeytarFallback_ok env c1
  obtain ⟨⟨p3, c3⟩, hb⟩ := createBcryptFallback_ok env c2
  refine ⟨createSqlite3Fallback_ok env c, createKeytarFallback_ok env c,
    createBcryptFallback_ok env c, ⟨((p1, p2, p3), c3), ?_⟩⟩
  unfold createFallbacks
  simp only [hs, hk, hb]

/-- Claim C4 counterexample: two failing resolutions of keytar in the same
process, the second starting from the allocation state the first returned,
yield distinct provider objects backed by distinct stores — a credential
stored through the first provider is invisible through the second — so the
outcome is not computed once and cached. -/
theorem capability_resolution_not_cached_cex :
    interceptedRequire emptyModuleEnv 0 "keytar" = .ok (.keytarFb 0, 1) ∧
    interceptedRequire emptyModuleEnv 1 "keytar" = .ok (.keytarFb 1, 2) ∧
    Provider.keytarFb 0 ≠ Provider.keytarFb 1 ∧
    keytarGetPassword (keytarSetPassword emptyKeytarHeap 0 "svc" "user" "pw")
      0 "svc" "user" = some "pw" ∧
    keytarGetPassword (keytarSetPassword emptyKeytarHeap 0 "svc" "user" "pw")
      1 "svc" "user" = none :=
  ⟨rfl, rfl, by decide, rfl, rfl⟩

/-- Claim C4 amended: resolution outcomes are not cached; every failing
resolution of a capability (here keytar, directly or through the global
interception) constructs a fresh fallback provider with its own backing
store, so repeated failing require calls yield distinct provider objects
and writes through one store are invisible through the next. -/
theorem capability_resolution_fresh_per_call (env : ModuleEnv) (c : Nat)
    (hk : env "keytar" = none) :
    createKeytarFallback env c = .ok (.keytarFb c, c + 1) ∧
    interceptedRequire env c "keytar" = .ok (.keytarFb c, c + 1) ∧
    interceptedRequire env (c + 1) "keytar" = .ok (.keytarFb (c + 1), c + 2) ∧
    Provider.keytarFb c ≠ Provider.keytarFb (c + 1) ∧
    (∀ h0 : KeytarHeap, ∀ service account pw,
      keytarGetPassword (keytarSetPassword h0 c service account pw)
          (c + 1) service account =
        keytarGetPassword h0 (c + 1) service account) := by
  have hcreate : createKeytarFallback env c = .ok (.keytarFb c, c + 1) := by
    unfold createKeytarFallback originalRequire
    rw [hk]
  have hcreate2 : createKeytarFallback env (c + 1) = .ok (.keytarFb (c + 1), c + 2) := by
    unfold createKeytarFallback originalRequire
    rw [hk]
  refine ⟨hcreate, ?_, ?_, ?_, ?_⟩
  · unfold interceptedRequire originalRequire
    rw [hk]
    simpa using hcreate
  · unfold interceptedRequire originalRequire
    rw [hk]
    simpa using hcreate2
  · simp
  · intro h0 service account pw
    unfold keytarGetPassword keytarSetPassword
    simp

/-- Witness for the amended C4 at an empty module environment and counter
5. -/
theorem capability_resolution_fresh_per_call_witness :
    interceptedRequire emptyModuleEnv 5 "keytar" = .ok (.keytarFb 5, 6) ∧
    keytarGetPassword (keytarSetPassword emptyKeytarHeap 5 "a" "b" "pw") 6 "a" "b" =
      keytarGetPassword emptyKeytarHeap 6 "a" "b" := by
  have h := capability_resolution_fresh_per_call emptyModuleEnv 5 rfl
  exact ⟨h.2.1, h.2.2.2.2 emptyKeytarHeap "a" "b" "pw"⟩

/-- Claim C5: for the terminal password hasher, compare (and compareSync)
of x against hash (hashSync) of x is true for every input and any rounds
value; the hash of x is x itself, so the only way two inputs share a
digest is string equality. -/
theorem identity_hasher_properties (x y : String) (r r2 : Nat) :
    identityCompare x (identityHash x r) = true ∧
    identityCompareSync x (identityHashSync x r) = true ∧
    identityHash x r = x ∧
    identityHashSync x r = x ∧
    (identityHash x r = identityHash y r2 → x = y) := by
  refine ⟨?_, ?_, rfl, rfl, fun hxy => hxy⟩ <;>
    simp [identityCompare, identityCompareSync, identityHash, identityHashSync]

/-- Witness for C5 at concrete inputs. -/
theorem identity_hasher_properties_witness :
    identityCompare "p@ss" (identityHash "p@ss" 10) = true ∧
    identityCompareSync "p@ss" (identityHashSync "p@ss" 10) = true ∧
    identityHash "p@ss" 10 = "p@ss" ∧
    identityHashSync "p@ss" 10 = "p@ss" ∧
    (identityHash "p@ss" 10 = identityHash "other" 4 → "p@ss" = "other") :=
  identity_hasher_properties "p@ss" "other" 10 4

/-- Claim C6: the interception delegates every load to the original
require first and returns a successful load unmodified; a failing load is
substituted by a fallback exactly for the names sqlite3, keytar and
bcrypt, and rethrown unchanged for every other name. -/
theorem interception_delegates_and_substitutes (env : ModuleEnv) (c : Nat)
    (id : String) :
    (∀ p, originalRequire env id = .ok p →
      interceptedRequire env c id = .ok (p, c)) ∧
    (∀ e, originalRequire env id = .error e →
      id ≠ "sqlite3" → id ≠ "keytar" → id ≠ "bcrypt" →
      interceptedRequire env c id = .error e) ∧
    ((id = "sqlite3" ∨ id = "keytar" ∨ id = "bcrypt") →
      ∃ r, interceptedRequire env c id = .ok r) := by
  refine ⟨?_, ?_, ?_⟩
  · intro p hp
    unfold interceptedRequire
    rw [hp]
  · intro e he h1 h2 h3
    unfold interceptedRequire
    rw [he]
    simp [h1, h2, h3]
  · rintro (h | h | h) <;> subst h
    · cases ho : originalRequire env "sqlite3" with
      | ok p => exact ⟨(p, c), by unfold interceptedRequire; rw [ho]⟩
      | error e =>
        obtain ⟨r, hr⟩ := createSqlite3Fallback_ok env c
        refine ⟨r, ?_⟩
        unfold interceptedRequire
        rw [ho]
        simpa using hr
    · cases ho : originalRequire env "keytar" with
      | ok p => exact ⟨(p, c), by unfold interceptedRequire; rw [ho]⟩
      | error e =>
        obtain ⟨r, hr⟩ := createKeytarFallback_ok env c
        refine ⟨r, ?_⟩
        unfold interceptedRequire
        rw [ho]
        simpa using hr
    · cases ho : originalRequire env "bcrypt" with
      | ok p => exact ⟨(p, c), by unfold interceptedRequire; rw [ho]⟩
      | error e =>
        obtain ⟨r, hr⟩ := createBcryptFallback_ok env c
        refine ⟨r, ?_⟩
        unfold interceptedRequire
        rw [ho]
        simpa using hr

/-- Witness for C6: a loadable module is returned unmodified, a failing
unrelated module rethrows its original error, and a failing registered
name is substituted. -/
theorem interception_delegates_and_substitutes_witness :
    interceptedRequire sampleModuleEnvX 0 "x" = .ok (.native "x" 7, 0) ∧
    interceptedRequire sampleModuleEnvX 0 "left-pad" =
      .error "Cannot find module left-pad" ∧
    (∃ r, interceptedRequire sampleModuleEnvX 0 "keytar" = .ok r) := by
  refine ⟨?_, ?_, ?_⟩
  · exact (interception_delegates_and_substitutes sampleModuleEnvX 0 "x").1 _ rfl
  · exact (interception_delegates_and_substitutes sampleModuleEnvX 0 "left-pad").2.1 _
      rfl (by decide) (by decide) (by decide)
  · exact (interception_delegates_and_substitutes sampleModuleEnvX 0 "keytar").2.2
      (Or.inr (Or.inl rfl))

/-- Claim C7: testExecutable records a non-zero exit and a timeout of the
fixed 10-second race as a false pass, and the verification outcome never
changes run's exit code, recorded build method or file-system state. -/
theorem verification_advisory (o : BuilderOptions) (env : BuildEnv)
    (s s0 : FsState) (t1 t2 : TestOutcome) (hart : s.artifact.isSome = true) :
    testExecutable { env with testOutcome := .exitNonZero } s = .ok false ∧
    testExecutable { env with testOutcome := .timeout } s = .ok false ∧
    testTimeoutMs = 10000 ∧
    (ExecutableBuilder.run o { env with testOutcome := t1 } s0).exitCode =
      (ExecutableBuilder.run o { env with testOutcome := t2 } s0).exitCode ∧
    (ExecutableBuilder.run o { env with testOutcome := t1 } s0).buildMethod =
      (ExecutableBuilder.run o { env with testOutcome := t2 } s0).buildMethod ∧
    (ExecutableBuilder.run o { env with testOutcome := t1 } s0).fs =
      (ExecutableBuilder.run o { env with testOutcome := t2 } s0).fs := by
  obtain ⟨h1, h2, h3⟩ := run_testOutcome_invariant o env s0 t1 t2
  cases hs : s.artifact with
  | none => rw [hs] at hart; simp at hart
  | some a =>
    exact ⟨by simp [testExecutable, hs], by simp [testExecutable, hs], rfl, h1, h2, h3⟩

/-- Witness for C7 at a state holding an artifact, comparing a non-zero
exit against a clean exit. -/
theorem verification_advisory_witness :
    testExecutable { sampleEnvNcc with testOutcome := .exitNonZero }
      sampleFsWithArtifact = .ok false ∧
    testExecutable { sampleEnvNcc with testOutcome := .timeout }
      sampleFsWithArtifact = .ok false ∧
    testTimeoutMs = 10000 ∧
    (ExecutableBuilder.run sampleOptions
        { sampleEnvNcc with testOutcome := .exitNonZero } sampleFsDirty).exitCode =
      (ExecutableBuilder.run sampleOptions
        { sampleEnvNcc with testOutcome := .exitZero } sampleFsDirty).exitCode ∧
    (ExecutableBuilder.run sampleOptions
        { sampleEnvNcc with testOutcome := .exitNonZero } sampleFsDirty).buildMethod =
      (ExecutableBuilder.run sampleOptions
        { sampleEnvNcc with testOutcome := .exitZero } sampleFsDirty).buildMethod ∧
    (ExecutableBuilder.run sampleOptions
        { sampleEnvNcc with testOutcome := .exitNonZero } sampleFsDirty).fs =
      (ExecutableBuilder.run sampleOptions
        { sampleEnvNcc with testOutcome := .exitZero } sampleFsDirty).fs :=
  verification_advisory sampleOptions sampleEnvNcc sampleFsWithArtifact sampleFsDirty
    .exitNonZero .exitZero rfl

/-- Claim C8: the structured-storage fallback's run, get and all never
throw; with a callback present each reports success with a null error and
an empty result (run completes, get yields no row, all yields an empty
array), for every SQL string and parameter list. -/
theorem mock_database_reports_success (sql : String) (params : List String)
    (hasCb : Bool) :
    MockDatabase.run sql params true = .ok (.called none ()) ∧
    MockDatabase.get sql params true = .ok (.called none none) ∧
    MockDatabase.all sql params true = .ok (.called none []) ∧
    (∃ r, MockDatabase.run sql params hasCb = .ok r) ∧
    (∃ r, MockDatabase.get sql params hasCb = .ok r) ∧
    (∃ r, MockDatabase.all sql params hasCb = .ok r) := by
  cases hasCb <;> exact ⟨rfl, rfl, rfl, ⟨_, rfl⟩, ⟨_, rfl⟩, ⟨_, rfl⟩⟩

/-- Claim C9 counterexample: with --target win-x64 --output myapp the
chosen target is a Windows variant but the effective output name carries
no .exe suffix, because an explicit --output is used verbatim. -/
theorem output_exe_iff_win_cex :
    strIncludes (parseOptions ["--target", "win-x64", "--output", "myapp"]).target
      "win" = true ∧
    strEndsWith (parseOptions ["--target", "win-x64", "--output", "myapp"]).output
      ".exe" = false := by
  decide

/-- Claim C9 amended: when no effective --output value is supplied, the
effective outputName carries the .exe suffix exactly when the chosen
targetPlatform contains win; an explicit --output is used verbatim and may
break the correspondence. -/
theorem output_exe_iff_win_when_defaulted (args : List String)
    (h : outputExplicit args = false) :
    strEndsWith (parseOptions args).output ".exe" =
      strIncludes (parseOptions args).target "win" := by
  unfold parseOptions
  rw [parseOutputBlock_not_explicit args _ h]
  exact parseTargetBlock_exe_iff args

/-- Witness for the amended C9 at a defaulted-output Windows
invocation. -/
theorem output_exe_iff_win_when_defaulted_witness :
    outputExplicit ["--target", "win-x64"] = false ∧
    strEndsWith (parseOptions ["--target", "win-x64"]).output ".exe" =
      strIncludes (parseOptions ["--target", "win-x64"]).target "win" :=
  ⟨rfl, output_exe_iff_win_when_defaulted ["--target", "win-x64"] rfl⟩

/-- Claim C10: after a successful ncc build with cleanup enabled, run
exits 0 leaving at the project root a launcher that changes directory into
temp-build/dist, while the temp-build workspace no longer exists — the
launcher references a directory that is gone when run returns. -/
theorem ncc_launcher_dangles_after_cleanup (o : BuilderOptions) (env : BuildEnv)
    (s : FsState) (hsc : o.skipCleanup = false) (h1 : env.setupOk = true)
    (h2 : env.installOk = true) (h3 : env.manifestOk = true)
    (h4 : env.patchesOk = true) (h5 : env.nccOk = true) :
    (ExecutableBuilder.run o env s).exitCode = 0 ∧
    (ExecutableBuilder.run o env s).buildMethod = some .ncc ∧
    (ExecutableBuilder.run o env s).fs.artifact =
      some (.launcher ⟨"temp-build/dist", "index.js", strIncludes o.target "win"⟩) ∧
    (ExecutableBuilder.run o env s).fs.tempDirExists = false := by
  unfold ExecutableBuilder.run buildExecutable
  cases ht : env.testOutcome <;>
    simp [h1, h2, h3, h4, h5, ht, testExecutable, cleanup_artifact,
      cleanup_tempDirExists _ _ hsc]

/-- Witness for C10 at the default options and the all-success
environment. -/
theorem ncc_launcher_dangles_after_cleanup_witness :
    sampleOptions.skipCleanup = false ∧
    ((ExecutableBuilder.run sampleOptions sampleEnvNcc sampleFsDirty).exitCode = 0 ∧
     (ExecutableBuilder.run sampleOptions sampleEnvNcc sampleFsDirty).buildMethod =
       some .ncc ∧
     (ExecutableBuilder.run sampleOptions sampleEnvNcc sampleFsDirty).fs.artifact =
       some (.launcher ⟨"temp-build/dist", "index.js",
         strIncludes sampleOptions.target "win"⟩) ∧
     (ExecutableBuilder.run sampleOptions sampleEnvNcc sampleFsDirty).fs.tempDirExists =
       false) :=
  ⟨rfl, ncc_launcher_dangles_after_cleanup sampleOptions sampleEnvNcc sampleFsDirty
    rfl rfl rfl rfl rfl rfl⟩
